import Mathlib

/-!
Verification of the peer-synchronization code of `b_hard.py` (Computer B client)
in the hyper-eye-tracking repository.

The Python source is shallowly embedded: each network-facing function is
translated to a pure Lean function over an explicit state, with the
transport's success or failure of an individual socket call supplied as an
input (a `Bool` or an oracle `Nat → Bool`), and real-time timeouts modelled
as iteration fuel.  Floating-point coordinates and clock values never feed
into any control decision of the embedded code, so they are modelled as `Int`.
-/

namespace EyeTrack

/-- A control-channel message as built by `RobustSyncClient.send_message` and
decoded by `_receive_messages`: a `type` tag, the sender's timestamp, and the
serialized payload (`data`).  Payload bytes are opaque to all the control flow
modelled here, so they are kept as a `String`. -/
structure ControlMsg where
  type : String
  timestamp : Int
  data : String
deriving DecidableEq, Repr

/-- `RobustSyncClient.wait_for_message(expected_type, timeout)` (b_hard.py
lines 584-598), with the overall timeout modelled as the number `fuel` of
queue-polling iterations the deadline allows.  Each iteration dequeues the
head of the inbound queue; a message of the requested type is returned
together with the remaining queue, any other message is put back at the tail
of the queue.  When the fuel (the timeout) runs out, `none` is returned and
the queue is left as it stands. -/
def wait_for_message (t : String) : Nat → List ControlMsg → Option ControlMsg × List ControlMsg
  | 0, q => (none, q)
  | _ + 1, [] => (none, [])
  | fuel + 1, m :: rest =>
    if m.type = t then (some m, rest)
    else wait_for_message t fuel (rest ++ [m])

/-- Behaviour of `wait_for_message` when the queue holds a message of the
requested type after `pre` non-matching messages: that message is returned
unchanged and the non-matching messages are rotated to the tail. -/
lemma wait_for_message_found (t : String) :
    ∀ (pre : List ControlMsg), ∀ (fuel : Nat) (m : ControlMsg) (post : List ControlMsg),
      (∀ x ∈ pre, x.type ≠ t) → m.type = t → pre.length < fuel →
      wait_for_message t fuel (pre ++ m :: post) = (some m, post ++ pre) := by
  intro pre
  induction pre with
  | nil =>
    intro fuel m post _ hm hf
    cases fuel with
    | zero => omega
    | succ f => simp [wait_for_message, hm]
  | cons p pre ih =>
    intro fuel m post hpre hm hf
    cases fuel with
    | zero => simp at hf
    | succ f =>
      have hp : p.type ≠ t := hpre p (by simp)
      have hpre' : ∀ x ∈ pre, x.type ≠ t := fun x hx => hpre x (by simp [hx])
      have hf' : pre.length < f := by simp at hf; omega
      have step : wait_for_message t (f + 1) (p :: (pre ++ m :: post))
          = wait_for_message t f ((pre ++ m :: post) ++ [p]) := by
        simp [wait_for_message, hp]
      have assoc : (pre ++ m :: post) ++ [p] = pre ++ m :: (post ++ [p]) := by
        simp
      calc wait_for_message t (f + 1) ((p :: pre) ++ m :: post)
          = wait_for_message t f (pre ++ m :: (post ++ [p])) := by
            rw [show (p :: pre) ++ m :: post = p :: (pre ++ m :: post) by simp, step, assoc]
        _ = (some m, (post ++ [p]) ++ pre) := ih f m (post ++ [p]) hpre' hm hf'
        _ = (some m, post ++ p :: pre) := by simp

/-- A gaze-channel datagram as built by `send_gaze_data` and decoded by
`receive_gaze_data`: screen coordinates, a validity flag, the sender's
`time.time()` timestamp, and the `computer` identity tag (`"A"` or `"B"`). -/
structure GazeMsg where
  x : Int
  y : Int
  valid : Bool
  timestamp : Int
  computer : String
deriving DecidableEq, Repr

/-- The `remote_gaze_data` dictionary: the last known remote gaze sample. -/
structure RemoteGaze where
  x : Int
  y : Int
  valid : Bool
  timestamp : Int
deriving DecidableEq, Repr

/-- The mutable globals of the gaze channel in `b_hard.py`: the
`GAZE_SHARING_ACTIVE` gating flag, `remote_gaze_data`, the
`network_stats` counters, and the packets handed to `send_socket.sendto`
(the wire, recorded for the statements below). -/
structure BState where
  sharing : Bool
  remote : RemoteGaze
  sent : Nat
  received : Nat
  errors : Nat
  wire : List GazeMsg
deriving DecidableEq, Repr

/-- `send_gaze_data(gaze_x, gaze_y, valid)` (b_hard.py lines 638-659).
`now` is the `time.time()` value and `sendOk` tells whether the
`sendto` call raises a transport error.  When `GAZE_SHARING_ACTIVE` is
false the function returns at once; otherwise it serializes the sample
tagged `computer = "B"`, hands it to the socket and bumps `sent`, or bumps
`errors` if the transmit raised. -/
def send_gaze_data (s : BState) (x y : Int) (valid : Bool) (now : Int) (sendOk : Bool) :
    BState :=
  if s.sharing = false then s
  else if sendOk then
    { s with sent := s.sent + 1, wire := s.wire ++ [⟨x, y, valid, now, "B"⟩] }
  else
    { s with errors := s.errors + 1 }

/-- One call to `send_gaze_data`, as data. -/
structure GazeCall where
  x : Int
  y : Int
  valid : Bool
  now : Int
  sendOk : Bool
deriving DecidableEq, Repr

/-- A sequence of `send_gaze_data` calls, applied in order. -/
def send_gaze_run (s : BState) (cs : List GazeCall) : BState :=
  cs.foldl (fun t c => send_gaze_data t c.x c.y c.valid c.now c.sendOk) s

/-- One datagram arriving at the gaze receive socket: either it decodes to a
`GazeMsg` or `json.loads` fails on it. -/
inductive GazeDatagram
  | ok (m : GazeMsg)
  | malformed
deriving DecidableEq, Repr

/-- The body of the `receive_gaze_data` loop for one received datagram
(b_hard.py lines 661-678): a decodable datagram whose `computer` field is
`"A"` overwrites `remote_gaze_data` and bumps `received`; any other
decodable datagram is ignored; a malformed datagram bumps `errors`. -/
def receive_gaze_step (s : BState) (d : GazeDatagram) : BState :=
  match d with
  | .malformed => { s with errors := s.errors + 1 }
  | .ok m =>
    if m.computer = "A" then
      { s with remote := ⟨m.x, m.y, m.valid, m.timestamp⟩, received := s.received + 1 }
    else s

/-- The `receive_gaze_data` loop over a finite arrival sequence. -/
def receive_gaze_run (s : BState) (ds : List GazeDatagram) : BState :=
  ds.foldl receive_gaze_step s

/-- The datagrams of an arrival sequence that `receive_gaze_data` accepts:
decodable and tagged `computer = "A"`. -/
def acceptedFrom (ds : List GazeDatagram) : List GazeMsg :=
  ds.filterMap fun d =>
    match d with
    | .ok m => if m.computer = "A" then some m else none
    | .malformed => none

/-- The fields of a gaze datagram that land in `remote_gaze_data`. -/
def toRemote (m : GazeMsg) : RemoteGaze :=
  ⟨m.x, m.y, m.valid, m.timestamp⟩

lemma receive_gaze_run_remote (ds : List GazeDatagram) :
    ∀ s : BState, (receive_gaze_run s ds).remote
      = (acceptedFrom ds).foldl (fun _ m => toRemote m) s.remote := by
  induction ds with
  | nil => intro s; rfl
  | cons d rest ih =>
    intro s
    have hstep : receive_gaze_run s (d :: rest) = receive_gaze_run (receive_gaze_step s d) rest := rfl
    rw [hstep, ih]
    cases d with
    | malformed => rfl
    | ok m =>
      by_cases h : m.computer = "A"
      · simp [acceptedFrom, receive_gaze_step, h, toRemote]
      · simp [acceptedFrom, receive_gaze_step, h]

lemma foldl_overwrite_getLast (l : List GazeMsg) :
    ∀ r : RemoteGaze, l.foldl (fun _ m => toRemote m) r = ((l.getLast?).map toRemote).getD r := by
  induction l with
  | nil => intro r; rfl
  | cons a l ih =>
    intro r
    cases l with
    | nil => rfl
    | cons b l' =>
      have h1 : (a :: b :: l').foldl (fun _ m => toRemote m) r
          = (b :: l').foldl (fun _ m => toRemote m) (toRemote a) := rfl
      rw [h1, ih]
      simp [List.getLast?]

lemma receive_gaze_step_sharing (s : BState) (d : GazeDatagram) :
    (receive_gaze_step s d).sharing = s.sharing := by
  cases d with
  | malformed => rfl
  | ok m =>
    by_cases h : m.computer = "A" <;> simp [receive_gaze_step, h]

lemma receive_gaze_step_flag_indep (s : BState) (d : GazeDatagram) (b : Bool) :
    receive_gaze_step { s with sharing := b } d
      = { receive_gaze_step s d with sharing := b } := by
  cases d with
  | malformed => rfl
  | ok m =>
    by_cases h : m.computer = "A" <;> simp [receive_gaze_step, h]

lemma receive_gaze_run_sharing (ds : List GazeDatagram) :
    ∀ s : BState, (receive_gaze_run s ds).sharing = s.sharing := by
  induction ds with
  | nil => intro s; rfl
  | cons d rest ih =>
    intro s
    have hstep : receive_gaze_run s (d :: rest) = receive_gaze_run (receive_gaze_step s d) rest := rfl
    rw [hstep, ih, receive_gaze_step_sharing]

lemma receive_gaze_run_flag_indep (ds : List GazeDatagram) :
    ∀ (s : BState) (b : Bool),
      receive_gaze_run { s with sharing := b } ds
        = { receive_gaze_run s ds with sharing := b } := by
  induction ds with
  | nil => intro s b; rfl
  | cons d rest ih =>
    intro s b
    have h1 : receive_gaze_run { s with sharing := b } (d :: rest)
        = receive_gaze_run (receive_gaze_step { s with sharing := b } d) rest := rfl
    rw [h1, receive_gaze_step_flag_indep, ih]
    rfl

/-- The message `RobustSyncClient.send_message` builds before its retry loop
(b_hard.py lines 542-546): `{type, timestamp = now, data = payload or {}}`.
`payload` is `none` when the Python caller passes `data=None`, in which case
the empty payload is used. -/
def build_message (t : String) (now : Int) (payload : Option String) : ControlMsg :=
  ⟨t, now, payload.getD ""⟩

/-- The retry loop of `send_message` (b_hard.py lines 548-558): up to `n`
further attempts, the next one carrying index `i`; `ok i` tells whether
attempt `i`'s `sendto` completes without raising.  Returns the function's
result together with the packets that actually reached the socket (a raising
attempt transmits nothing). -/
def send_attempts (msg : ControlMsg) (ok : Nat → Bool) : Nat → Nat → Bool × List ControlMsg
  | 0, _ => (false, [])
  | n + 1, i => if ok i then (true, [msg]) else send_attempts msg ok n (i + 1)

/-- `RobustSyncClient.send_message(message_type, data, retry_count)`
(b_hard.py lines 537-558).  `hasSocket` is the `self.socket` guard, `now` the
`time.perf_counter()` stamp taken when the message is built, `ok` the
transport outcome of each attempt. -/
def send_message (hasSocket : Bool) (t : String) (now : Int) (payload : Option String)
    (ok : Nat → Bool) (retry_count : Nat) : Bool × List ControlMsg :=
  if hasSocket then send_attempts (build_message t now payload) ok retry_count 0
  else (false, [])

lemma send_attempts_fst (msg : ControlMsg) (ok : Nat → Bool) :
    ∀ (n i : Nat), (send_attempts msg ok n i).1 = true ↔ ∃ j, j < n ∧ ok (i + j) = true := by
  intro n
  induction n with
  | zero => intro i; simp [send_attempts]
  | succ n ih =>
    intro i
    by_cases h : ok i = true
    · simp only [send_attempts, h, if_true]
      constructor
      · intro _; exact ⟨0, Nat.succ_pos n, by simpa using h⟩
      · intro _; trivial
    · simp only [send_attempts, h, if_false, Bool.false_eq_true, ih (i + 1)]
      constructor
      · rintro ⟨j, hj, hok⟩
        exact ⟨j + 1, by omega, by rwa [show i + (j + 1) = i + 1 + j by omega]⟩
      · rintro ⟨j, hj, hok⟩
        cases j with
        | zero => simp at hok; exact absurd hok h
        | succ j' =>
          exact ⟨j', by omega, by rwa [show i + 1 + j' = i + (j' + 1) by omega]⟩

lemma send_attempts_snd (msg : ControlMsg) (ok : Nat → Bool) :
    ∀ (n i : Nat),
      (send_attempts msg ok n i).2 = if (send_attempts msg ok n i).1 then [msg] else [] := by
  intro n
  induction n with
  | zero => intro i; simp [send_attempts]
  | succ n ih =>
    intro i
    by_cases h : ok i = true
    · simp [send_attempts, h]
    · simp only [send_attempts, h, if_false]
      exact ih (i + 1)

/-- One datagram arriving at the control socket: either it decodes to a
`ControlMsg`, or `json.loads` fails on it. -/
inductive CtrlDatagram
  | ok (m : ControlMsg)
  | malformed
deriving DecidableEq, Repr

/-- Observable actions of one iteration of `_receive_messages`, in program
order: putting a decoded message on `message_queue`, and transmitting an
auto-reply. -/
inductive RecvEvent
  | enqueued (m : ControlMsg)
  | sentReply (t : String)
deriving DecidableEq, Repr

/-- The state touched by the `_receive_messages` loop: the inbound
`message_queue`, the types of the auto-replies it transmitted, and the
ordered trace of its observable actions. -/
structure RecvState where
  queue : List ControlMsg
  replies : List String
  trace : List RecvEvent
deriving DecidableEq, Repr

/-- The body of `RobustSyncClient._receive_messages` for one received
datagram (b_hard.py lines 560-582): a decodable datagram is enqueued on
`message_queue`, and then, if its type is `"ping"`, exactly one `"pong"`
reply is sent; a malformed datagram is dropped by the exception handler. -/
def receive_messages_step (s : RecvState) (d : CtrlDatagram) : RecvState :=
  match d with
  | .malformed => s
  | .ok m =>
    let s1 : RecvState :=
      { s with queue := s.queue ++ [m], trace := s.trace ++ [.enqueued m] }
    if m.type = "ping" then
      { s1 with replies := s1.replies ++ ["pong"], trace := s1.trace ++ [.sentReply "pong"] }
    else s1

/-- The `_receive_messages` loop over a finite arrival sequence. -/
def receive_messages_run (s : RecvState) (ds : List CtrlDatagram) : RecvState :=
  ds.foldl receive_messages_step s

/-- The successfully decoded messages of an arrival sequence, in order. -/
def decodedMsgs (ds : List CtrlDatagram) : List ControlMsg :=
  ds.filterMap fun d =>
    match d with
    | .ok m => some m
    | .malformed => none

/-- Whether a decoded control message is a `ping` heartbeat. -/
def isPing (m : ControlMsg) : Bool :=
  m.type = "ping"

lemma receive_messages_run_queue (ds : List CtrlDatagram) :
    ∀ s : RecvState, (receive_messages_run s ds).queue = s.queue ++ decodedMsgs ds := by
  induction ds with
  | nil => intro s; simp [receive_messages_run, decodedMsgs]
  | cons d rest ih =>
    intro s
    have hstep : receive_messages_run s (d :: rest)
        = receive_messages_run (receive_messages_step s d) rest := rfl
    rw [hstep, ih]
    cases d with
    | malformed => simp [receive_messages_step, decodedMsgs]
    | ok m =>
      by_cases h : m.type = "ping" <;>
        simp [receive_messages_step, decodedMsgs, h]

lemma receive_messages_run_replies (ds : List CtrlDatagram) :
    ∀ s : RecvState,
      (receive_messages_run s ds).replies
        = s.replies ++ List.replicate ((decodedMsgs ds).countP isPing) "pong" := by
  induction ds with
  | nil => intro s; simp [receive_messages_run, decodedMsgs]
  | cons d rest ih =>
    intro s
    have hstep : receive_messages_run s (d :: rest)
        = receive_messages_run (receive_messages_step s d) rest := rfl
    rw [hstep, ih]
    cases d with
    | malformed => simp [receive_messages_step, decodedMsgs]
    | ok m =>
      by_cases h : m.type = "ping"
      · simp [receive_messages_step, decodedMsgs, isPing, h, List.replicate_succ]
      · simp [receive_messages_step, decodedMsgs, isPing, h]

/-- Outcome of the session-start handshake of `run_synchronized_experiment`
(b_hard.py lines 1019-1030): which control message types the follower emits
in that phase, and whether it proceeds into the main experiment loop. -/
structure StartPhase where
  sent : List String
  proceeded : Bool
deriving DecidableEq, Repr

/-- The session-start handshake of `run_synchronized_experiment` (b_hard.py
lines 1019-1030): `start_msg` is the result of
`wait_for_message('start_experiment', timeout=60)`.  On timeout (`none`) the
function prints a message and returns at once; on success it sends
`ack_start` and proceeds. -/
def handle_start (start_msg : Option ControlMsg) : StartPhase :=
  match start_msg with
  | none => { sent := [], proceeded := false }
  | some _ => { sent := ["ack_start"], proceeded := true }

/-- The values taken on by `GAZE_SHARING_ACTIVE` across one stage handler of
`run_synchronized_experiment`: the value assigned on entering the handler,
the value in force while the handler's display loop runs, and the value
after the handler finishes. -/
structure SharingTrace where
  onEntry : Bool
  duringDisplay : Bool
  onExit : Bool
deriving DecidableEq, Repr

/-- The effect of each stage message of the main loop of
`run_synchronized_experiment` on `GAZE_SHARING_ACTIVE`, read off the
handlers in b_hard.py: `stage_grid_display` sets it true on entry (line
1054) and false on exit (line 1105); `stage_response` sets it false on entry
(line 1110) and false on exit (line 1211); `stage_feedback` sets it false on
entry (line 1216) and false on exit (line 1257).  Other message types leave
the flag alone. -/
def stage_sharing_effect : String → Option SharingTrace
  | "stage_grid_display" => some ⟨true, true, false⟩
  | "stage_response" => some ⟨false, false, false⟩
  | "stage_feedback" => some ⟨false, false, false⟩
  | _ => none

/-- The local variables of the `stage_response` handler of
`run_synchronized_experiment` (b_hard.py lines 1107-1211), plus the
`response_update` payloads it sends (responder, response, rt). -/
structure RespState where
  client_response : Option String
  client_rt : Option Int
  first_responder : Option String
  first_response : Option String
  target_square_color : String
  server_received : Bool
  client_received : Bool
  sent_updates : List (String × String × Int)
deriving DecidableEq, Repr

/-- The state at entry to the `stage_response` handler (b_hard.py lines
1115-1128): no responses yet, the target square red. -/
def respInit : RespState :=
  ⟨none, none, none, none, "red", false, false, []⟩

/-- One observable event inside the response-collection loop: a local
keypress reported by `event.getKeys` with its timestamp on
`response_clock`, or an inbound `response_update` message's payload. -/
inductive RespEvent
  | localKey (k : String) (rt : Int)
  | remoteUpdate (responder : String) (response : String)
deriving DecidableEq, Repr

/-- One iteration's handling of one event in the response-collection loop of
the `stage_response` handler (b_hard.py lines 1151-1206).  A local response
key is processed only while `response_received['client']` is false: it
records `client_response`/`client_rt`, and if `first_responder` is still
unset it records the client as first responder and turns the target square
green; a `response_update` it then sends carries the response.  Once the
client has responded, further response keys are silently discarded.  An
inbound `response_update` counts only when its responder is `"server"` and
the server has not been seen yet; it sets the first-responder fields the
same way if they are still unset. -/
def respStep (s : RespState) (e : RespEvent) : RespState :=
  match e with
  | .localKey k rt =>
    if s.client_received then s
    else if k = "f" ∨ k = "l" ∨ k = "h" ∨ k = "c" then
      let resp := k.toUpper
      let s1 : RespState :=
        { s with client_response := some resp, client_rt := some rt, client_received := true }
      let s2 : RespState :=
        if s1.first_responder = none then
          { s1 with first_responder := some "client", first_response := some resp,
                    target_square_color := "green" }
        else s1
      { s2 with sent_updates := s2.sent_updates ++ [("client", resp, rt)] }
    else s
  | .remoteUpdate responder response =>
    if responder = "server" then
      if s.server_received then s
      else
        let s1 : RespState := { s with server_received := true }
        if s1.first_responder = none then
          { s1 with first_responder := some "server", first_response := some response,
                    target_square_color := "green" }
        else s1
    else s

/-- The response-collection loop over a finite event sequence. -/
def respRun (s : RespState) (es : List RespEvent) : RespState :=
  es.foldl respStep s

lemma respStep_preserves_first (s : RespState) (e : RespEvent) (r : String)
    (h : s.first_responder = some r) :
    (respStep s e).first_responder = some r
      ∧ (respStep s e).first_response = s.first_response
      ∧ (respStep s e).target_square_color = s.target_square_color := by
  cases e with
  | localKey k rt =>
    by_cases hc : s.client_received
    · simp [respStep, hc, h]
    · by_cases hk : k = "f" ∨ k = "l" ∨ k = "h" ∨ k = "c"
      · simp [respStep, hc, hk, h]
      · simp [respStep, hc, hk, h]
  | remoteUpdate responder response =>
    by_cases hr : responder = "server"
    · by_cases hs : s.server_received
      · simp [respStep, hr, hs, h]
      · simp [respStep, hr, hs, h]
    · simp [respStep, hr, h]

lemma respRun_preserves_first (es : List RespEvent) :
    ∀ (s : RespState) (r : String), s.first_responder = some r →
      (respRun s es).first_responder = some r
        ∧ (respRun s es).first_response = s.first_response
        ∧ (respRun s es).target_square_color = s.target_square_color := by
  induction es with
  | nil => intro s r h; exact ⟨h, rfl, rfl⟩
  | cons e rest ih =>
    intro s r h
    have hstep := respStep_preserves_first s e r h
    have hrun : respRun s (e :: rest) = respRun (respStep s e) rest := rfl
    have := ih (respStep s e) r hstep.1
    rw [hrun]
    exact ⟨this.1, this.2.1.trans hstep.2.1, this.2.2.trans hstep.2.2⟩

/-- Claim C1: for every call to `send_gaze_data` made while
`GAZE_SHARING_ACTIVE` is false, no transmit is attempted and no network
state changes — the sample is dropped, the `sent` counter is not
incremented, and no packet is handed to the socket — and this holds for any
sequence of calls: the whole state is left exactly as it was. -/
theorem C1_no_transmit_while_sharing_inactive (s : BState) (cs : List GazeCall)
    (h : s.sharing = false) : send_gaze_run s cs = s := by
  induction cs with
  | nil => rfl
  | cons c rest ih =>
    have hstep : send_gaze_data s c.x c.y c.valid c.now c.sendOk = s := by
      simp [send_gaze_data, h]
    have : send_gaze_run s (c :: rest)
        = send_gaze_run (send_gaze_data s c.x c.y c.valid c.now c.sendOk) rest := rfl
    rw [this, hstep, ih]

theorem C1_no_transmit_while_sharing_inactive_witness :
    send_gaze_run ⟨false, ⟨0, 0, false, 0⟩, 3, 4, 5, []⟩
        [⟨100, 200, true, 7, true⟩, ⟨0, 0, false, 8, false⟩]
      = ⟨false, ⟨0, 0, false, 0⟩, 3, 4, 5, []⟩ :=
  C1_no_transmit_while_sharing_inactive ⟨false, ⟨0, 0, false, 0⟩, 3, 4, 5, []⟩
    [⟨100, 200, true, 7, true⟩, ⟨0, 0, false, 8, false⟩] rfl

/-- Claim C2 (refuted by the code): the claim says entry into the Feedback
stage sets the Gaze Channel sharing flag true; the `stage_feedback` handler
in fact assigns `GAZE_SHARING_ACTIVE = False` on entry (b_hard.py line
1216), so the flag is false throughout the feedback display and false on
exit (line 1257) — contradicting the handler's own comment that feedback is
displayed "WITH gaze sharing" and leaving its flag-guarded gaze-drawing
branch dead. -/
theorem C2_feedback_entry_clears_sharing :
    (stage_sharing_effect "stage_feedback").map SharingTrace.onEntry = some false
      ∧ (stage_sharing_effect "stage_feedback").map SharingTrace.duringDisplay = some false
      ∧ (stage_sharing_effect "stage_feedback").map SharingTrace.onExit = some false :=
  ⟨rfl, rfl, rfl⟩

/-- Claim C3 counterexample: when the follower's wait for `start_experiment`
times out (`wait_for_message` returned `none`), the coordinator emits no
`end_experiment` — it returns without sending anything, refuting the claim
that a handshake timeout attempts a best-effort `end_experiment`. -/
theorem C3_timeout_sends_no_end_experiment :
    "end_experiment" ∉ (handle_start none).sent := by
  decide

/-- Claim C3 as amended: when the follower's wait for `start_experiment`
exceeds its timeout, the coordinator aborts the session before any trial and
returns immediately, emitting no control message at all (in particular no
`end_experiment`); only when the start message arrives does it send
`ack_start` and proceed into the trial loop. -/
theorem C3_amended_timeout_aborts_silently :
    handle_start none = { sent := [], proceeded := false }
      ∧ handle_start (some ⟨"start_experiment", 0, ""⟩)
          = { sent := ["ack_start"], proceeded := true } :=
  ⟨rfl, rfl⟩

/-- Claim C4: within one ResponseCollection stage, `first_responder` and
`first_response` are assigned at most once — once `first_responder` holds a
value, any further sequence of local response keypresses and inbound
`response_update` messages leaves `first_responder`, `first_response`, and
the target-square colour (the visible feedback signal) unchanged. -/
theorem C4_first_responder_set_at_most_once (s : RespState) (r : String)
    (es : List RespEvent) (h : s.first_responder = some r) :
    (respRun s es).first_responder = some r
      ∧ (respRun s es).first_response = s.first_response
      ∧ (respRun s es).target_square_color = s.target_square_color :=
  respRun_preserves_first es s r h

theorem C4_first_responder_set_at_most_once_witness :
    (respRun ⟨some "F", some 5, some "client", some "F", "green", false, true,
        [("client", "F", 5)]⟩
      [RespEvent.remoteUpdate "server" "H", RespEvent.localKey "h" 9]).first_responder
        = some "client"
    ∧ (respRun ⟨some "F", some 5, some "client", some "F", "green", false, true,
        [("client", "F", 5)]⟩
      [RespEvent.remoteUpdate "server" "H", RespEvent.localKey "h" 9]).first_response
        = (⟨some "F", some 5, some "client", some "F", "green", false, true,
            [("client", "F", 5)]⟩ : RespState).first_response
    ∧ (respRun ⟨some "F", some 5, some "client", some "F", "green", false, true,
        [("client", "F", 5)]⟩
      [RespEvent.remoteUpdate "server" "H", RespEvent.localKey "h" 9]).target_square_color
        = (⟨some "F", some 5, some "client", some "F", "green", false, true,
            [("client", "F", 5)]⟩ : RespState).target_square_color :=
  C4_first_responder_set_at_most_once
    ⟨some "F", some 5, some "client", some "F", "green", false, true, [("client", "F", 5)]⟩
    "client" [RespEvent.remoteUpdate "server" "H", RespEvent.localKey "h" 9] rfl

/-- Claim C5: when the inbound queue holds a message of the requested type
(the first one after `pre` messages of other types), `wait_for_message` with
enough remaining timeout iterations dequeues and returns exactly that
message unchanged, and the queue it leaves behind holds exactly the other
messages (the returned message together with the final queue is a
permutation of the original queue). -/
theorem C5_wait_for_returns_exact_type_and_preserves_rest (t : String)
    (pre post : List ControlMsg) (m : ControlMsg)
    (hpre : ∀ x ∈ pre, x.type ≠ t) (hm : m.type = t)
    (fuel : Nat) (hf : pre.length < fuel) :
    wait_for_message t fuel (pre ++ m :: post) = (some m, post ++ pre)
      ∧ List.Perm (m :: (post ++ pre)) (pre ++ m :: post) := by
  refine ⟨wait_for_message_found t pre fuel m post hpre hm hf, ?_⟩
  simpa using (@List.perm_append_comm ControlMsg (m :: post) pre)

theorem C5_wait_for_returns_exact_type_and_preserves_rest_witness :
    wait_for_message "start_experiment" 2
        ([(⟨"pong", 0, ""⟩ : ControlMsg)] ++ (⟨"start_experiment", 1, "x"⟩ : ControlMsg) :: [])
      = (some ⟨"start_experiment", 1, "x"⟩, [] ++ [(⟨"pong", 0, ""⟩ : ControlMsg)])
    ∧ List.Perm ((⟨"start_experiment", 1, "x"⟩ : ControlMsg) :: ([] ++ [(⟨"pong", 0, ""⟩ : ControlMsg)]))
        ([(⟨"pong", 0, ""⟩ : ControlMsg)] ++ (⟨"start_experiment", 1, "x"⟩ : ControlMsg) :: []) :=
  C5_wait_for_returns_exact_type_and_preserves_rest "start_experiment"
    [⟨"pong", 0, ""⟩] [] ⟨"start_experiment", 1, "x"⟩
    (by decide) (by decide) 2 (by decide)

/-- Claim C6: the gaze receive loop is independent of the local sharing flag
(it neither reads nor writes it), and every accepted incoming gaze datagram
overwrites the last-known remote sample with no buffering or reordering
correction: after any arrival sequence the retained sample is exactly the
most recently received accepted datagram's fields, whatever its timestamp. -/
theorem C6_receive_loop_last_received_wins (s : BState) (ds : List GazeDatagram) :
    (receive_gaze_run s ds).remote = (((acceptedFrom ds).getLast?).map toRemote).getD s.remote
      ∧ (receive_gaze_run s ds).sharing = s.sharing
      ∧ ∀ b : Bool,
          receive_gaze_run { s with sharing := b } ds
            = { receive_gaze_run s ds with sharing := b } := by
  refine ⟨?_, receive_gaze_run_sharing ds s, fun b => receive_gaze_run_flag_indep ds s b⟩
  rw [receive_gaze_run_remote, foldl_overwrite_getLast]

/-- Claim C7: `send_message` serializes `{type, timestamp = now, data =
payload or empty}` once, then retries the transmit up to `retry_count`
times; it returns true if and only if the socket exists and some attempt
transmitted without raising (false after all attempts fail), and the packets
that reach the socket are exactly one copy of that serialized message when
some attempt succeeds, none otherwise. -/
theorem C7_send_message_retries_and_reports (hasSocket : Bool) (t : String) (now : Int)
    (payload : Option String) (ok : Nat → Bool) (retry_count : Nat) :
    ((send_message hasSocket t now payload ok retry_count).1 = true
        ↔ hasSocket = true ∧ ∃ i, i < retry_count ∧ ok i = true)
      ∧ (send_message hasSocket t now payload ok retry_count).2
          = (if (send_message hasSocket t now payload ok retry_count).1
              then [build_message t now payload] else []) := by
  cases hasSocket with
  | false => simp [send_message]
  | true =>
    constructor
    · simpa using send_attempts_fst (build_message t now payload) ok retry_count 0
    · simpa [send_message] using send_attempts_snd (build_message t now payload) ok retry_count 0

/-- Claim C8: for every datagram decoded by the control receive loop whose
type is `ping`, exactly one `pong` reply is transmitted back — over any
arrival sequence the replies sent are exactly one `"pong"` per decoded
`ping`, regardless of what other messages arrive around them. -/
theorem C8_exactly_one_pong_per_ping (s : RecvState) (ds : List CtrlDatagram) :
    (receive_messages_run s ds).replies
      = s.replies ++ List.replicate ((decodedMsgs ds).countP isPing) "pong" :=
  receive_messages_run_replies ds s

/-- Claim C9: `receive_gaze_data` updates the last-known remote gaze state
and the `received` counter only on datagrams whose `computer` field is
`"A"`: a decodable datagram with any other origin leaves the whole state
(remote sample, counters, everything) unchanged. -/
theorem C9_only_computer_A_updates_remote (s : BState) (m : GazeMsg)
    (h : m.computer ≠ "A") :
    receive_gaze_step s (GazeDatagram.ok m) = s := by
  simp [receive_gaze_step, h]

theorem C9_only_computer_A_updates_remote_witness :
    receive_gaze_step ⟨true, ⟨1, 2, true, 3⟩, 4, 5, 6, []⟩
        (GazeDatagram.ok ⟨9, 9, true, 99, "B"⟩)
      = ⟨true, ⟨1, 2, true, 3⟩, 4, 5, 6, []⟩ :=
  C9_only_computer_A_updates_remote ⟨true, ⟨1, 2, true, 3⟩, 4, 5, 6, []⟩
    ⟨9, 9, true, 99, "B"⟩ (by decide)

/-- Claim C10: every successfully decoded control message — ping and pong
heartbeats included — is appended to the inbound application message queue,
and for a decoded datagram the enqueue is the first observable action of the
iteration, preceding any `pong` auto-reply, so consumers can dequeue
heartbeats interleaved with protocol messages. -/
theorem C10_decoded_messages_enqueued_before_reply (s : RecvState)
    (ds : List CtrlDatagram) (m : ControlMsg) :
    (receive_messages_run s ds).queue = s.queue ++ decodedMsgs ds
      ∧ (receive_messages_step s (CtrlDatagram.ok m)).trace
          = s.trace ++ RecvEvent.enqueued m
              :: (if m.type = "ping" then [RecvEvent.sentReply "pong"] else []) := by
  refine ⟨receive_messages_run_queue ds s, ?_⟩
  by_cases h : m.type = "ping" <;> simp [receive_messages_step, h]

end EyeTrack
